import Mathlib

/-!
Verification of the ExpresToons request/response pipeline.

The definitions below are a shallow embedding of the TypeScript source:
the Gemini service module (`fileToGenerativePart`, `getCartoonPrompt`,
`generateCartoon`, `editImage`) and the two submit handlers of `App.tsx`
(`handleGenerateCartoon`, `handleEditImage`).  Network effects are
factored out: the request side is modelled by the part list each call
sends, and the response side by a total function over an explicit
response value, with the unguarded accesses of the source modelled as a
distinguished runtime-error outcome.
-/

namespace ExpresToons

/-- Inline binary data carried by a part: a MIME type and a base64 payload,
as in the `inlineData` objects of the source. -/
structure InlineData where
  mimeType : String
  data : String
deriving DecidableEq, Repr

/-- A part of a request sent to the API: either an image part
(`{ inlineData }`) or a text part (`{ text }`). -/
inductive ReqPart where
  | image (d : InlineData)
  | text (t : String)
deriving DecidableEq, Repr

/-- A part of an API response; only the optional `inlineData` field is
inspected by the scan loops of the source. -/
structure RespPart where
  inlineData : Option InlineData
deriving DecidableEq, Repr

/-- The `content` object of a response candidate; `parts` is optional in
the response type of the SDK, and the source does not guard against its
absence. -/
structure Content where
  parts : Option (List RespPart)
deriving DecidableEq, Repr

/-- A response candidate; `content` is optional in the response type of
the SDK, and the source does not guard against its absence. -/
structure Candidate where
  content : Option Content
deriving DecidableEq, Repr

/-- An API response: an ordered list of candidates (an absent or empty
`candidates` array is modelled as the empty list). -/
structure Response where
  candidates : List Candidate
deriving DecidableEq, Repr

/-- The data URL built by the scan loops:
`data:` + mimeType + `;base64,` + data. -/
def dataUrl (d : InlineData) : String :=
  "data:" ++ d.mimeType ++ ";base64," ++ d.data

/-- The `for (const part of parts) if (part.inlineData) return ...` loop
shared verbatim by `generateCartoon` and `editImage`: returns the data
URL of the first part carrying inline data, if any. -/
def extractLoop : List RespPart → Option String
  | [] => none
  | p :: rest =>
    match p.inlineData with
    | some d => some (dataUrl d)
    | none => extractLoop rest

/-- Specification-side description of the target of the loop: the inline data
of the first part that carries some. -/
def firstInlineData (ps : List RespPart) : Option InlineData :=
  (ps.find? fun p => p.inlineData.isSome).bind fun p => p.inlineData

/-- Outcome of running the extraction on a response: a data URL, the
thrown `No image ...` error, or a generic runtime error from the
unguarded `response.candidates[0].content.parts` access. -/
inductive ExtractResult where
  | ok (url : String)
  | noImage (msg : String)
  | runtimeError
deriving DecidableEq, Repr

/-- The extraction performed after the API call in both `generateCartoon`
and `editImage`: dereference `candidates[0].content.parts` (a missing
step yields a runtime error, as the source leaves it unguarded) and run
the scan loop, throwing `noImageMsg` when no part carries inline data. -/
def responseExtract (r : Response) (noImageMsg : String) : ExtractResult :=
  match r.candidates with
  | [] => .runtimeError
  | c :: _ =>
    match c.content with
    | none => .runtimeError
    | some co =>
      match co.parts with
      | none => .runtimeError
      | some ps =>
        match extractLoop ps with
        | some url => .ok url
        | none => .noImage noImageMsg

/-- The message of the error thrown by `generateCartoon` when no part
carries inline data. -/
def generateNoImageMsg : String := "No image generated."

/-- The message of the error thrown by `editImage` when no part carries
inline data. -/
def editNoImageMsg : String := "No image generated from edit."

/-- Response handling of `generateCartoon`. -/
def generateCartoonExtract (r : Response) : ExtractResult :=
  responseExtract r generateNoImageMsg

/-- Response handling of `editImage`. -/
def editImageExtract (r : Response) : ExtractResult :=
  responseExtract r editNoImageMsg

/-- A browser `File` as the source consumes it: its MIME type
(`file.type`) and the `FileReader` result, `some s` when reading produced
a string (a data URL) and `none` otherwise. -/
structure File where
  mimeType : String
  readerResult : Option String
deriving DecidableEq, Repr

/-- Embedding of `fileToGenerativePart`: base64 payload is the portion of
the data URL produced by the reader after the first comma (index 1 of the comma split), or
the empty string when the reader did not produce a string. -/
def fileToGenerativePart (f : File) : InlineData :=
  { data :=
      match f.readerResult with
      | some s => (s.splitOn ",").getD 1 ""
      | none => ""
    mimeType := f.mimeType }

/-- Modelled from the spec: the file `types.ts` of the repository (imported as
`./types`) is not present; per the spec the style category is
`magazine` or `cartoonist`. -/
inductive StyleType where
  | magazine
  | cartoonist
deriving DecidableEq, Repr

/-- The color option of the generation form: `color` or `black_and_white`. -/
inductive ColorOption where
  | color
  | black_and_white
deriving DecidableEq, Repr

/-- The signature fragment of `getCartoonPrompt`: the placement clause for
a non-empty signature, empty otherwise. -/
def signatureText (signature : String) : String :=
  if signature = "" then ""
  else " Subtly place the signature \x27" ++ signature ++
    "\x27 in one of the bottom corners of the image."

/-- The placement-instruction clause embedding a signature text. -/
def placementClause (signature : String) : String :=
  " Subtly place the signature \x27" ++ signature ++
    "\x27 in one of the bottom corners of the image."

/-- The style fragment of `getCartoonPrompt`: magazine phrasing for the
`magazine` category, cartoonist phrasing otherwise. -/
def stylePrompt (styleType : StyleType) (styleName : String) : String :=
  match styleType with
  | .magazine => "in the distinct artistic style of " ++ styleName ++ " magazine"
  | .cartoonist => "in the distinct artistic style of cartoonist " ++ styleName

/-- The character fragment of `getCartoonPrompt`: a fixed clause when a
character image is supplied, empty otherwise. -/
def characterInstruction (hasCharacterImage : Bool) : String :=
  if hasCharacterImage then " Feature the character from the provided image in the scene."
  else ""

/-- The fixed character-feature clause. -/
def characterClause : String :=
  " Feature the character from the provided image in the scene."

/-- The fixed full-color clause. -/
def fullColorClause : String := " The cartoon should be in full color."

/-- The fixed black-and-white clause. -/
def bwClause : String := " The cartoon should be in black and white."

/-- The color fragment of `getCartoonPrompt`. -/
def colorInstruction (colorOption : ColorOption) : String :=
  if colorOption = .black_and_white then bwClause else fullColorClause

/-- Embedding of `getCartoonPrompt`: the template string returned by the
source, fragment for fragment. -/
def getCartoonPrompt (description : String) (styleType : StyleType)
    (styleName : String) (signature : String) (hasCharacterImage : Bool)
    (colorOption : ColorOption) : String :=
  "Generate a single-panel cartoon " ++ stylePrompt styleType styleName ++
    ". The scene is: " ++ description ++ "." ++
    characterInstruction hasCharacterImage ++ colorInstruction colorOption ++
    " The cartoon should be humorous and thought-provoking, capturing the essence of the specified style." ++
    signatureText signature

/-- The cartoon prompt without its final signature fragment. -/
def cartoonPromptBase (description : String) (styleType : StyleType)
    (styleName : String) (hasCharacterImage : Bool)
    (colorOption : ColorOption) : String :=
  "Generate a single-panel cartoon " ++ stylePrompt styleType styleName ++
    ". The scene is: " ++ description ++ "." ++
    characterInstruction hasCharacterImage ++ colorInstruction colorOption ++
    " The cartoon should be humorous and thought-provoking, capturing the essence of the specified style."

/-- The part list assembled by `generateCartoon`: the character image part
first when present, then the single text part with the composed prompt. -/
def generateCartoonRequest (description : String) (styleType : StyleType)
    (styleName : String) (signature : String) (characterImage : Option File)
    (colorOption : ColorOption) : List ReqPart :=
  let prompt := getCartoonPrompt description styleType styleName signature
    characterImage.isSome colorOption
  (match characterImage with
   | some f => [ReqPart.image (fileToGenerativePart f)]
   | none => []) ++ [ReqPart.text prompt]

/-- The part list assembled by `editImage`: the uploaded image part, then
the text part with the raw edit instruction. -/
def editImageRequest (imageFile : File) (prompt : String) : List ReqPart :=
  [ReqPart.image (fileToGenerativePart imageFile), ReqPart.text prompt]

/-- Number of text parts in a request. -/
def countText (ps : List ReqPart) : Nat :=
  (ps.filter fun p => match p with | .text _ => true | .image _ => false).length

/-- Number of image parts in a request. -/
def countImage (ps : List ReqPart) : Nat :=
  (ps.filter fun p => match p with | .image _ => true | .text _ => false).length

/-- Substring containment, on the underlying character lists. -/
def strContains (s t : String) : Prop :=
  t.data <:+: s.data

/-- Concrete response whose single candidate holds one part with inline
data `{mimeType: "image/png", data: "QUJD"}`. -/
def pngResponse : Response :=
  ⟨[⟨some ⟨some [⟨some ⟨"image/png", "QUJD"⟩⟩]⟩⟩]⟩

/-- Concrete response whose single candidate holds one part without
inline data. -/
def textOnlyResponse : Response := ⟨[⟨some ⟨some [⟨none⟩]⟩⟩]⟩

/-- The cartoon form state read by `handleGenerateCartoon` in `App.tsx`. -/
structure CartoonFormState where
  cartoonPrompt : String
  styleType : StyleType
  magazineStyle : String
  cartoonistStyle : String
  customStyle : String
  signature : String
  characterImage : Option File
  colorOption : ColorOption
deriving DecidableEq, Repr

/-- The `isCustom` test of `handleGenerateCartoon`: the selected dropdown
value is `Other...` for the active style category. -/
def isCustomStyle (s : CartoonFormState) : Bool :=
  (s.styleType == .magazine && s.magazineStyle == "Other...") ||
    (s.styleType == .cartoonist && s.cartoonistStyle == "Other...")

/-- The resolved style name of `handleGenerateCartoon`: the custom text
when `Other...` is selected, else the active dropdown value. -/
def resolvedStyleName (s : CartoonFormState) : String :=
  if isCustomStyle s then s.customStyle
  else if s.styleType == .magazine then s.magazineStyle
  else s.cartoonistStyle

/-- The validation message of `handleGenerateCartoon`. -/
def validationMsg : String := "Please provide a description and a style."

/-- The validation message of `handleEditImage`. -/
def editValidationMsg : String :=
  "Please upload an image and provide an edit instruction."

/-- The fallback message when the caught value is not an `Error`. -/
def unknownErrorMsg : String := "An unknown error occurred."

/-- What `handleGenerateCartoon` does before any state change: either a
validation error (empty description or empty resolved style name) or an
API call carrying the assembled part list. -/
inductive GenerateAction where
  | validationError (msg : String)
  | apiCall (parts : List ReqPart)
deriving DecidableEq, Repr

/-- The request decision of `handleGenerateCartoon`: validation precedes
every network interaction, so a failing form never produces an API call. -/
def handleGenerateCartoonAction (form : CartoonFormState) : GenerateAction :=
  let styleName := resolvedStyleName form
  if form.cartoonPrompt = "" ∨ styleName = "" then
    .validationError validationMsg
  else
    .apiCall (generateCartoonRequest form.cartoonPrompt form.styleType
      styleName form.signature form.characterImage form.colorOption)

/-- The UI state touched by the two submit handlers of `App.tsx`. -/
structure AppState where
  error : Option String
  isGeneratingCartoon : Bool
  generatedCartoon : Option String
  cartoonHistory : List String
  isEditingImage : Bool
  editedImage : Option String
  editHistory : List String
deriving DecidableEq, Repr

/-- Outcome of the awaited API call: a data URL string, or a thrown value
whose message is `some m` when it is an `Error` and `none` otherwise. -/
inductive ApiOutcome where
  | success (url : String)
  | failure (msg : Option String)
deriving DecidableEq, Repr

/-- State transformer of `handleGenerateCartoon`: validation, then the
pre-call updates (`setError(null)`, `setIsGeneratingCartoon(true)`,
`setGeneratedCartoon(null)`), then the try/catch/finally outcome. -/
def handleGenerateCartoon (form : CartoonFormState) (st : AppState)
    (outcome : ApiOutcome) : AppState :=
  if form.cartoonPrompt = "" ∨ resolvedStyleName form = "" then
    { st with error := some validationMsg }
  else
    let started :=
      { st with
        error := none
        isGeneratingCartoon := true
        generatedCartoon := none }
    match outcome with
    | .success url =>
      { started with
        generatedCartoon := some url
        cartoonHistory := url :: started.cartoonHistory
        isGeneratingCartoon := false }
    | .failure m =>
      { started with
        error := some (m.getD unknownErrorMsg)
        isGeneratingCartoon := false }

/-- The edit form state read by `handleEditImage` in `App.tsx`. -/
structure EditFormState where
  originalImage : Option File
  editPrompt : String
deriving DecidableEq, Repr

/-- State transformer of `handleEditImage`: validation, then the pre-call
updates (`setError(null)`, `setIsEditingImage(true)`,
`setEditedImage(null)`), then the try/catch/finally outcome. -/
def handleEditImage (form : EditFormState) (st : AppState)
    (outcome : ApiOutcome) : AppState :=
  if form.originalImage = none ∨ form.editPrompt = "" then
    { st with error := some editValidationMsg }
  else
    let started :=
      { st with
        error := none
        isEditingImage := true
        editedImage := none }
    match outcome with
    | .success url =>
      { started with
        editedImage := some url
        editHistory := url :: started.editHistory
        isEditingImage := false }
    | .failure m =>
      { started with
        error := some (m.getD unknownErrorMsg)
        isEditingImage := false }

/-- Concrete form with an empty description. -/
def emptyPromptForm : CartoonFormState :=
  { cartoonPrompt := "", styleType := .magazine, magazineStyle := "Punch",
    cartoonistStyle := "Gary Larson", customStyle := "", signature := "",
    characterImage := none, colorOption := .color }

/-- Concrete valid cartoon form. -/
def validCartoonForm : CartoonFormState :=
  { cartoonPrompt := "A cat", styleType := .magazine, magazineStyle := "Punch",
    cartoonistStyle := "Gary Larson", customStyle := "", signature := "",
    characterImage := none, colorOption := .color }

/-- Concrete valid edit form. -/
def validEditForm : EditFormState :=
  { originalImage := some { mimeType := "image/png", readerResult := none },
    editPrompt := "Make it blue" }

/-- Concrete state holding previously displayed results and history. -/
def priorState : AppState :=
  { error := none, isGeneratingCartoon := false,
    generatedCartoon := some "prev-cartoon", cartoonHistory := ["prev-cartoon"],
    isEditingImage := false, editedImage := some "prev-edit",
    editHistory := ["prev-edit"] }

theorem strData_append (a b : String) : (a ++ b).data = a.data ++ b.data := rfl

theorem strContains_of_decomp (s pre t post : String)
    (h : s = pre ++ (t ++ post)) : strContains s t := by
  subst h
  exact ⟨pre.data, post.data, by simp [strData_append, List.append_assoc]⟩

theorem extractLoop_eq_firstInlineData (ps : List RespPart) :
    extractLoop ps = (firstInlineData ps).map dataUrl := by
  induction ps with
  | nil => rfl
  | cons p rest ih =>
    cases h : p.inlineData with
    | some d => simp [extractLoop, firstInlineData, List.find?, h]
    | none =>
      simpa [extractLoop, firstInlineData, List.find?, h] using ih

/-- C1: whenever the part list of the scanned candidate carries some inline
data, both scan loops return the data URL built from the first such part
in list order, exactly `data:` + mimeType + `;base64,` + data. -/
theorem extract_returns_first_inline_dataUrl (r : Response) (c : Candidate)
    (cs : List Candidate) (co : Content) (ps : List RespPart) (d : InlineData)
    (h1 : r.candidates = c :: cs) (h2 : c.content = some co)
    (h3 : co.parts = some ps) (h4 : firstInlineData ps = some d) :
    generateCartoonExtract r =
      .ok ("data:" ++ d.mimeType ++ ";base64," ++ d.data)
    ∧ editImageExtract r =
      .ok ("data:" ++ d.mimeType ++ ";base64," ++ d.data) := by
  have hl : extractLoop ps = some (dataUrl d) := by
    rw [extractLoop_eq_firstInlineData, h4]; rfl
  constructor <;>
    simp [generateCartoonExtract, editImageExtract, responseExtract,
      h1, h2, h3, hl, dataUrl]

/-- Witness for C1 at the concrete part `{image/png, QUJD}`: the result is
exactly `data:image/png;base64,QUJD`. -/
theorem extract_returns_first_inline_dataUrl_witness :
    firstInlineData [RespPart.mk (some (InlineData.mk "image/png" "QUJD"))] =
      some (InlineData.mk "image/png" "QUJD")
    ∧ generateCartoonExtract pngResponse =
      .ok "data:image/png;base64,QUJD" := by
  refine ⟨rfl, ?_⟩
  have h := extract_returns_first_inline_dataUrl pngResponse
    (Candidate.mk (some (Content.mk (some [RespPart.mk (some (InlineData.mk "image/png" "QUJD"))]))))
    [] (Content.mk (some [RespPart.mk (some (InlineData.mk "image/png" "QUJD"))]))
    [RespPart.mk (some (InlineData.mk "image/png" "QUJD"))]
    (InlineData.mk "image/png" "QUJD") rfl rfl rfl rfl
  exact h.1.trans (by rfl)

/-- C2: the ordered part list sent to the API is `[imagePart, textPart]`
for every edit, `[imagePart, textPart]` for generation with a character
image, `[textPart]` without one; every request holds exactly one text
part and at most one image part. -/
theorem request_part_ordering (f : File) (p : String) (d : String)
    (st : StyleType) (sn sig : String) (cimg : Option File) (co : ColorOption) :
    editImageRequest f p =
      [ReqPart.image (fileToGenerativePart f), ReqPart.text p]
    ∧ generateCartoonRequest d st sn sig cimg co =
        (match cimg with
         | some g => [ReqPart.image (fileToGenerativePart g),
             ReqPart.text (getCartoonPrompt d st sn sig true co)]
         | none => [ReqPart.text (getCartoonPrompt d st sn sig false co)])
    ∧ countText (generateCartoonRequest d st sn sig cimg co) = 1
    ∧ countImage (generateCartoonRequest d st sn sig cimg co) ≤ 1
    ∧ countText (editImageRequest f p) = 1
    ∧ countImage (editImageRequest f p) = 1 := by
  cases cimg <;>
    simp [editImageRequest, generateCartoonRequest, countText, countImage,
      Option.isSome, List.filter]

/-- Witness for C2 at concrete inputs. -/
theorem request_part_ordering_witness :
    editImageRequest (File.mk "image/png" none) "Make it blue" =
      [ReqPart.image (fileToGenerativePart (File.mk "image/png" none)),
        ReqPart.text "Make it blue"]
    ∧ countText (generateCartoonRequest "A cat" .magazine "Punch" "" none .color) = 1 :=
  ⟨(request_part_ordering (File.mk "image/png" none) "Make it blue" "A cat"
      .magazine "Punch" "" none .color).1,
    (request_part_ordering (File.mk "image/png" none) "Make it blue" "A cat"
      .magazine "Punch" "" none .color).2.2.1⟩

theorem strAppend_assoc (a b c : String) : a ++ b ++ c = a ++ (b ++ c) := by
  cases a; cases b; cases c
  exact congrArg String.mk (List.append_assoc _ _ _)

theorem strAppend_empty (a : String) : a ++ "" = a := by
  cases a
  exact congrArg String.mk (List.append_nil _)

/-- C3: for every style category and non-empty style name, the composed
prompt contains the style clause verbatim — the magazine phrasing for the
`magazine` category and the cartoonist phrasing for the other category. -/
theorem style_clause_in_prompt (d : String) (st : StyleType) (sn sig : String)
    (b : Bool) (co : ColorOption) (h : sn ≠ "") :
    strContains (getCartoonPrompt d st sn sig b co) (stylePrompt st sn)
    ∧ stylePrompt .magazine sn =
        "in the distinct artistic style of " ++ sn ++ " magazine"
    ∧ stylePrompt .cartoonist sn =
        "in the distinct artistic style of cartoonist " ++ sn := by
  refine ⟨?_, rfl, rfl⟩
  apply strContains_of_decomp _ "Generate a single-panel cartoon " _
    (". The scene is: " ++ (d ++ ("." ++ (characterInstruction b ++
      (colorInstruction co ++
        (" The cartoon should be humorous and thought-provoking, capturing the essence of the specified style." ++
          signatureText sig))))))
  simp only [getCartoonPrompt, strAppend_assoc]

/-- Witness for C3 at a concrete magazine style. -/
theorem style_clause_in_prompt_witness :
    strContains
      (getCartoonPrompt "A cat" .magazine "Punch" "" false .color)
      (stylePrompt .magazine "Punch")
    ∧ stylePrompt .magazine "Punch" =
        "in the distinct artistic style of " ++ "Punch" ++ " magazine" := by
  have h := style_clause_in_prompt "A cat" .magazine "Punch" "" false .color
    (by decide)
  exact ⟨h.1, h.2.1⟩

/-- Counterexample to C4 as stated: with an empty signature the prompt can
still contain a placement-instruction clause, because the description is
embedded verbatim and may itself carry one. -/
theorem empty_signature_no_clause_counterexample :
    strContains
      (getCartoonPrompt (placementClause "x") .magazine "Punch" "" false .color)
      (placementClause "x") := by
  apply strContains_of_decomp _
    ("Generate a single-panel cartoon " ++
      (stylePrompt .magazine "Punch" ++ ". The scene is: ")) _
    ("." ++ (characterInstruction false ++ (colorInstruction .color ++
      (" The cartoon should be humorous and thought-provoking, capturing the essence of the specified style." ++
        signatureText ""))))
  simp only [getCartoonPrompt, strAppend_assoc]

/-- C4 (amended): a non-empty signature produces a prompt containing the
placement clause with that exact signature text; with an empty signature
the template appends no placement clause — the prompt is exactly the
clause-free base — though the clause text may still occur inside other
user-supplied fields such as the description. -/
theorem signature_clause_amended (d : String) (st : StyleType) (sn : String)
    (b : Bool) (co : ColorOption) (sig : String) :
    (sig ≠ "" →
      strContains (getCartoonPrompt d st sn sig b co) (placementClause sig))
    ∧ getCartoonPrompt d st sn "" b co = cartoonPromptBase d st sn b co := by
  constructor
  · intro hs
    apply strContains_of_decomp _ (cartoonPromptBase d st sn b co) _ ""
    rw [strAppend_empty]
    simp [getCartoonPrompt, cartoonPromptBase, signatureText, placementClause,
      hs, strAppend_assoc]
  · simp [getCartoonPrompt, cartoonPromptBase, signatureText, strAppend_empty]

/-- Witness for C4 (amended) at signature `Zoe` and at the empty
signature. -/
theorem signature_clause_amended_witness :
    strContains
      (getCartoonPrompt "A cat" .magazine "Punch" "Zoe" false .color)
      (placementClause "Zoe")
    ∧ getCartoonPrompt "A cat" .magazine "Punch" "" false .color =
        cartoonPromptBase "A cat" .magazine "Punch" false .color := by
  have h := signature_clause_amended "A cat" .magazine "Punch" false .color "Zoe"
  have h0 := signature_clause_amended "A cat" .magazine "Punch" false .color ""
  exact ⟨h.1 (by decide), h0.2⟩

/-- Counterexample to C5 as stated: with the `color` option both fixed
color clauses occur in the prompt when the description carries the
black-and-white clause text, since the description is embedded verbatim. -/
theorem color_clause_never_both_counterexample :
    strContains (getCartoonPrompt bwClause .magazine "Punch" "" false .color)
      fullColorClause
    ∧ strContains (getCartoonPrompt bwClause .magazine "Punch" "" false .color)
      bwClause := by
  constructor
  · apply strContains_of_decomp _
      ("Generate a single-panel cartoon " ++ (stylePrompt .magazine "Punch" ++
        (". The scene is: " ++ (bwClause ++ ("." ++ characterInstruction false))))) _
      (" The cartoon should be humorous and thought-provoking, capturing the essence of the specified style." ++
        signatureText "")
    simp only [getCartoonPrompt, strAppend_assoc, colorInstruction,
      if_neg (by decide : ¬(ColorOption.color = ColorOption.black_and_white))]
  · apply strContains_of_decomp _
      ("Generate a single-panel cartoon " ++
        (stylePrompt .magazine "Punch" ++ ". The scene is: ")) _
      ("." ++ (characterInstruction false ++ (colorInstruction .color ++
        (" The cartoon should be humorous and thought-provoking, capturing the essence of the specified style." ++
          signatureText ""))))
    simp only [getCartoonPrompt, strAppend_assoc]

/-- C5 (amended): the template appends exactly one of the two fixed color
clauses — the full-color clause for the `color` option and the
black-and-white clause for `black_and_white`, which are distinct — at a
fixed position independent of the option; the other clause can only occur
via user-supplied text. -/
theorem color_clause_amended (d : String) (st : StyleType) (sn sig : String)
    (b : Bool) :
    (∃ pre post, ∀ co, getCartoonPrompt d st sn sig b co =
      pre ++ (colorInstruction co ++ post))
    ∧ colorInstruction .color = fullColorClause
    ∧ colorInstruction .black_and_white = bwClause
    ∧ fullColorClause ≠ bwClause
    ∧ ∀ co, strContains (getCartoonPrompt d st sn sig b co)
        (colorInstruction co) := by
  refine ⟨⟨"Generate a single-panel cartoon " ++ (stylePrompt st sn ++
      (". The scene is: " ++ (d ++ ("." ++ characterInstruction b)))),
    " The cartoon should be humorous and thought-provoking, capturing the essence of the specified style." ++
      signatureText sig, ?_⟩, rfl, rfl, by decide, ?_⟩
  · intro co
    simp only [getCartoonPrompt, strAppend_assoc]
  · intro co
    apply strContains_of_decomp _
      ("Generate a single-panel cartoon " ++ (stylePrompt st sn ++
        (". The scene is: " ++ (d ++ ("." ++ characterInstruction b))))) _
      (" The cartoon should be humorous and thought-provoking, capturing the essence of the specified style." ++
        signatureText sig)
    simp only [getCartoonPrompt, strAppend_assoc]

/-- Witness for C5 (amended) at concrete inputs. -/
theorem color_clause_amended_witness :
    colorInstruction .color = fullColorClause
    ∧ strContains (getCartoonPrompt "A cat" .magazine "Punch" "" false .color)
        (colorInstruction .color) := by
  have h := color_clause_amended "A cat" .magazine "Punch" "" false
  exact ⟨h.2.1, h.2.2.2.2 .color⟩

/-- Counterexample to C6 as stated: without a character image the prompt
can still contain the fixed character-feature clause, carried by the
verbatim-embedded description. -/
theorem character_clause_counterexample :
    strContains
      (getCartoonPrompt characterClause .cartoonist "Gary Larson" "" false .color)
      characterClause := by
  apply strContains_of_decomp _
    ("Generate a single-panel cartoon " ++
      (stylePrompt .cartoonist "Gary Larson" ++ ". The scene is: ")) _
    ("." ++ (characterInstruction false ++ (colorInstruction .color ++
      (" The cartoon should be humorous and thought-provoking, capturing the essence of the specified style." ++
        signatureText ""))))
  simp only [getCartoonPrompt, strAppend_assoc]

/-- C6 (amended): the template appends the fixed character-feature clause
exactly when a character image is supplied (the appended fragment is the
clause for `true` and empty for `false`), and with a character image the
prompt contains the clause; without one the clause can only occur via
user-supplied text. -/
theorem character_clause_amended (d : String) (st : StyleType) (sn sig : String)
    (co : ColorOption) :
    (∃ pre post, ∀ b, getCartoonPrompt d st sn sig b co =
      pre ++ (characterInstruction b ++ post))
    ∧ characterInstruction true = characterClause
    ∧ characterInstruction false = ""
    ∧ strContains (getCartoonPrompt d st sn sig true co) characterClause := by
  refine ⟨⟨"Generate a single-panel cartoon " ++ (stylePrompt st sn ++
      (". The scene is: " ++ (d ++ "."))),
    colorInstruction co ++
      (" The cartoon should be humorous and thought-provoking, capturing the essence of the specified style." ++
        signatureText sig), ?_⟩, rfl, rfl, ?_⟩
  · intro b
    simp only [getCartoonPrompt, strAppend_assoc]
  · apply strContains_of_decomp _
      ("Generate a single-panel cartoon " ++ (stylePrompt st sn ++
        (". The scene is: " ++ (d ++ ".")))) _
      (colorInstruction co ++
        (" The cartoon should be humorous and thought-provoking, capturing the essence of the specified style." ++
          signatureText sig))
    simp only [getCartoonPrompt, strAppend_assoc, characterInstruction,
      characterClause, if_true]

/-- Witness for C6 (amended) at concrete inputs. -/
theorem character_clause_amended_witness :
    characterInstruction true = characterClause
    ∧ strContains (getCartoonPrompt "A cat" .magazine "Punch" "" true .color)
        characterClause := by
  have h := character_clause_amended "A cat" .magazine "Punch" "" .color
  exact ⟨h.2.1, h.2.2.2⟩

theorem extractLoop_none_of_all_none (ps : List RespPart)
    (h : ∀ p ∈ ps, p.inlineData = none) : extractLoop ps = none := by
  induction ps with
  | nil => rfl
  | cons p rest ih =>
    have hp := h p (List.mem_cons_self p rest)
    simp only [extractLoop, hp]
    exact ih fun q hq => h q (List.mem_cons_of_mem p hq)

/-- C7: when the part list of the scanned candidate carries no inline data,
both call sites fail with their own `no image` message, and the two
user-facing messages are distinct. -/
theorem no_inline_data_distinct_errors (r : Response) (c : Candidate)
    (cs : List Candidate) (co : Content) (ps : List RespPart)
    (h1 : r.candidates = c :: cs) (h2 : c.content = some co)
    (h3 : co.parts = some ps) (h4 : ∀ p ∈ ps, p.inlineData = none) :
    generateCartoonExtract r = .noImage generateNoImageMsg
    ∧ editImageExtract r = .noImage editNoImageMsg
    ∧ generateNoImageMsg ≠ editNoImageMsg := by
  have hl := extractLoop_none_of_all_none ps h4
  refine ⟨?_, ?_, by decide⟩ <;>
    simp [generateCartoonExtract, editImageExtract, responseExtract,
      h1, h2, h3, hl]

/-- Witness for C7 at a concrete text-only response. -/
theorem no_inline_data_distinct_errors_witness :
    generateCartoonExtract textOnlyResponse = .noImage generateNoImageMsg
    ∧ editImageExtract textOnlyResponse = .noImage editNoImageMsg
    ∧ generateNoImageMsg ≠ editNoImageMsg :=
  no_inline_data_distinct_errors textOnlyResponse
    (Candidate.mk (some (Content.mk (some [RespPart.mk none]))))
    [] (Content.mk (some [RespPart.mk none])) [RespPart.mk none]
    rfl rfl rfl (by intro p hp; simp at hp; simp [hp])

/-- C8: an empty description or empty resolved style name makes
`handleGenerateCartoon` surface the validation message and return before
any network interaction — no API call is issued and the resulting state
does not depend on any API outcome. -/
theorem empty_inputs_validation_error (form : CartoonFormState)
    (h : form.cartoonPrompt = "" ∨ resolvedStyleName form = "") :
    handleGenerateCartoonAction form = .validationError validationMsg
    ∧ (∀ parts, handleGenerateCartoonAction form ≠ .apiCall parts)
    ∧ ∀ st outcome, handleGenerateCartoon form st outcome =
        { st with error := some validationMsg } := by
  refine ⟨?_, ?_, ?_⟩
  · simp [handleGenerateCartoonAction, if_pos h]
  · intro parts
    simp [handleGenerateCartoonAction, if_pos h]
  · intro st outcome
    simp [handleGenerateCartoon, if_pos h]

/-- Witness for C8 at a concrete form with an empty description. -/
theorem empty_inputs_validation_error_witness :
    handleGenerateCartoonAction emptyPromptForm =
      .validationError validationMsg :=
  (empty_inputs_validation_error emptyPromptForm (Or.inl rfl)).1

/-- Counterexample to C9 as stated: after an errored generation the
previously displayed result is not left untouched — the handler cleared
it (`setGeneratedCartoon(null)`) before the request, so it ends `none`
instead of the prior value; likewise for an errored edit. -/
theorem error_untouched_results_counterexample :
    (handleGenerateCartoon validCartoonForm priorState
        (.failure (some "boom"))).generatedCartoon ≠
      priorState.generatedCartoon
    ∧ (handleEditImage validEditForm priorState
        (.failure (some "boom"))).editedImage ≠
      priorState.editedImage := by
  constructor <;> decide

/-- C9 (amended): an error is terminal for the triggering action only —
the in-flight flag is reset to false, the error message is set, the
history arrays and the results of the other action are untouched — but the
displayed result of the triggering action, cleared when the action
started, stays cleared rather than reverting to its prior value. -/
theorem error_terminal_amended (form : CartoonFormState)
    (eform : EditFormState) (st : AppState) (m : Option String)
    (h : ¬(form.cartoonPrompt = "" ∨ resolvedStyleName form = ""))
    (he : ¬(eform.originalImage = none ∨ eform.editPrompt = "")) :
    ((handleGenerateCartoon form st (.failure m)).isGeneratingCartoon = false
    ∧ (handleGenerateCartoon form st (.failure m)).cartoonHistory =
        st.cartoonHistory
    ∧ (handleGenerateCartoon form st (.failure m)).editHistory = st.editHistory
    ∧ (handleGenerateCartoon form st (.failure m)).editedImage = st.editedImage
    ∧ (handleGenerateCartoon form st (.failure m)).isEditingImage =
        st.isEditingImage
    ∧ (handleGenerateCartoon form st (.failure m)).generatedCartoon = none
    ∧ (handleGenerateCartoon form st (.failure m)).error =
        some (m.getD unknownErrorMsg))
    ∧ ((handleEditImage eform st (.failure m)).isEditingImage = false
    ∧ (handleEditImage eform st (.failure m)).editHistory = st.editHistory
    ∧ (handleEditImage eform st (.failure m)).cartoonHistory =
        st.cartoonHistory
    ∧ (handleEditImage eform st (.failure m)).generatedCartoon =
        st.generatedCartoon
    ∧ (handleEditImage eform st (.failure m)).isGeneratingCartoon =
        st.isGeneratingCartoon
    ∧ (handleEditImage eform st (.failure m)).editedImage = none
    ∧ (handleEditImage eform st (.failure m)).error =
        some (m.getD unknownErrorMsg)) := by
  constructor
  · simp [handleGenerateCartoon, if_neg h]
  · simp [handleEditImage, if_neg he]

/-- Witness for C9 (amended) at concrete forms, state and error. -/
theorem error_terminal_amended_witness :
    (handleGenerateCartoon validCartoonForm priorState
        (.failure (some "boom"))).isGeneratingCartoon = false
    ∧ (handleGenerateCartoon validCartoonForm priorState
        (.failure (some "boom"))).cartoonHistory = priorState.cartoonHistory
    ∧ (handleEditImage validEditForm priorState
        (.failure (some "boom"))).isEditingImage = false
    ∧ (handleEditImage validEditForm priorState
        (.failure (some "boom"))).editHistory = priorState.editHistory := by
  have h := error_terminal_amended validCartoonForm validEditForm priorState
    (some "boom") (by decide) (by decide)
  exact ⟨h.1.1, h.1.2.1, h.2.1, h.2.2.1⟩

/-- C10: the extraction looks only at the first candidate — its result is
unchanged by dropping or replacing every later candidate — and a response
with no candidates, a first candidate without `content`, or content
without `parts`, yields the generic runtime error of the unguarded
access, which is distinct from every distinguishable no-image error. -/
theorem extractor_first_candidate_only (c : Candidate)
    (cs cs2 : List Candidate) (msg : String) :
    responseExtract ⟨c :: cs⟩ msg = responseExtract ⟨[c]⟩ msg
    ∧ responseExtract ⟨c :: cs⟩ msg = responseExtract ⟨c :: cs2⟩ msg
    ∧ generateCartoonExtract ⟨[]⟩ = .runtimeError
    ∧ editImageExtract ⟨[]⟩ = .runtimeError
    ∧ responseExtract ⟨Candidate.mk none :: cs⟩ msg = .runtimeError
    ∧ responseExtract ⟨Candidate.mk (some (Content.mk none)) :: cs⟩ msg =
        .runtimeError
    ∧ ∀ m, ExtractResult.runtimeError ≠ ExtractResult.noImage m :=
  ⟨rfl, rfl, rfl, rfl, rfl, rfl, fun _ h => ExtractResult.noConfusion h⟩

/-- Witness for C10 at a concrete candidate list. -/
theorem extractor_first_candidate_only_witness :
    responseExtract ⟨[Candidate.mk none, Candidate.mk none]⟩
        generateNoImageMsg =
      responseExtract ⟨[Candidate.mk none]⟩ generateNoImageMsg
    ∧ generateCartoonExtract ⟨[]⟩ = .runtimeError :=
  ⟨(extractor_first_candidate_only (Candidate.mk none) [Candidate.mk none] []
      generateNoImageMsg).1,
    (extractor_first_candidate_only (Candidate.mk none) [] []
      generateNoImageMsg).2.2.1⟩

end ExpresToons

